import Mathlib

/-!
Verification of the terminal suspension and external-handler dispatch
mechanism of `tg/utils.py`: the `get_file_handler` resolver and the
`suspend` context manager (its `__enter__`/`__exit__` bracket and the
payload operations `call`, `run_with_input`, `open_file`).

The embedding is shallow: the curses terminal mode and the three display
regions' refresh strategies become an explicit record `UIState`; the
curses calls performed by `__enter__`/`__exit__` become lists of primitive
actions applied in source order; external collaborators (the mimetypes
guess table, the mailcap registry, child-process exit codes, the
configuration) become an explicit environment record `Env`.  Python
exceptions become an `Option String` error component that the
`with`-statement runner propagates after running `__exit__`.
-/

namespace Tg

/-! ## Strings: `shlex.quote` and `str.format` with the `file_path` key -/

/-- Characters Python's `shlex.quote` considers safe (the complement of
`_find_unsafe`, i.e. ASCII word characters and the punctuation
at-sign, percent, plus, equals, colon, comma, dot, slash, hyphen). -/
def shlexSafeChar (c : Char) : Bool :=
  c.isAlphanum || c = '_' || c = '@' || c = '%' || c = '+' || c = '=' ||
    c = ':' || c = ',' || c = '.' || c = '/' || c = '-'

/-- The single-quote character, written by code point to keep sources
readable. -/
def quoteCh : Char := Char.ofNat 39

/-- `shlex.quote`'s rewriting of one character inside single quotes: a
single quote becomes the five characters that close, double-quote and
reopen the quoting. -/
def quoteChar (c : Char) : List Char :=
  if c = quoteCh then "\x27\x22\x27\x22\x27".data else [c]

/-- Python's `shlex.quote`: empty string becomes a pair of single quotes,
a string of safe characters is returned unchanged, anything else is
wrapped in single quotes with embedded quotes escaped. -/
def shlex_quote (s : String) : String :=
  if s.data = [] then "\x27\x27"
  else if s.data.all shlexSafeChar then s
  else String.mk ("\x27".data ++ (s.data.map quoteChar).flatten ++ "\x27".data)

/-- Replace every occurrence of `pat` in the input by `repl`, scanning
left to right without rescanning replaced text; `fuel` bounds the
recursion (one unit per consumed input character). -/
def replaceFuel (pat repl : List Char) : Nat → List Char → List Char
  | 0, l => l
  | _ + 1, [] => []
  | fuel + 1, c :: rest =>
    if pat ≠ [] ∧ pat.isPrefixOf (c :: rest) then
      repl ++ replaceFuel pat repl fuel ((c :: rest).drop pat.length)
    else
      c :: replaceFuel pat repl fuel rest

/-- `tmpl.format(file_path=arg)` for a template whose only placeholder is
`{file_path}`: substitute `arg` for each occurrence of the placeholder. -/
def formatFilePath (tmpl arg : String) : String :=
  String.mk (replaceFuel "\x7bfile_path\x7d".data arg.data tmpl.data.length tmpl.data)

/-! ## Environment: external collaborators of the core -/

/-- External collaborators consumed by the core, made explicit.
`guessType` is `mimetypes.guess_type`'s first component; `mailcapFind`
is `mailcap.findmatch`'s handler component for a media type and file
name; `callExit`/`runExit` are the exit codes the child processes return
to `subprocess.call`/`subprocess.run`.

`DEFAULT_OPEN` is the configuration value `config.DEFAULT_OPEN`.
Modelled from the spec: the configuration module is not part of the
studied source; the spec describes `DEFAULT_OPEN` as a shell command
template with a `{file_path}` placeholder that may be unset, so it is an
`Option String`, and reading it while unset is the Python attribute
error on `None`. -/
structure Env where
  guessType : String → Option String
  mailcapFind : String → String → Option String
  DEFAULT_OPEN : Option String
  callExit : String → Int
  runExit : String → String → Int

/-! ## The resolver `get_file_handler` -/

/-- `get_file_handler(file_path, default=None)`.  Guess the media type;
a falsy guess (absent or empty) returns the `default` argument verbatim.
Otherwise consult the mailcap registry; a falsy handler falls back to
`config.DEFAULT_OPEN.format(file_path=shlex.quote(file_path))`, which in
Python raises an attribute error when `DEFAULT_OPEN` is unset (`None`);
the error is the `Except.error` branch. -/
def get_file_handler (env : Env) (file_path : String) (default : Option String) :
    Except String (Option String) :=
  match env.guessType file_path with
  | none => Except.ok default
  | some mtype =>
    if mtype = "" then Except.ok default
    else
      match env.mailcapFind mtype file_path with
      | some handler =>
        if handler = "" then
          match env.DEFAULT_OPEN with
          | none => Except.error "AttributeError: NoneType has no attribute format"
          | some tmpl => Except.ok (some (formatFilePath tmpl (shlex_quote file_path)))
        else Except.ok (some handler)
      | none =>
        match env.DEFAULT_OPEN with
        | none => Except.error "AttributeError: NoneType has no attribute format"
        | some tmpl => Except.ok (some (formatFilePath tmpl (shlex_quote file_path)))

/-! ## Terminal and display-region state -/

/-- The two callables the bound-method swap toggles between on a display
region: `win.noutrefresh` (update the virtual screen only, deferring
physical output to `doupdate` — the batched variant) and `win.refresh`
(repaint the physical screen at once — the immediate variant). -/
inductive RefreshFn where
  | noutrefresh
  | refresh
  deriving DecidableEq, Repr

/-- `RefreshFn.refresh` repaints immediately; `RefreshFn.noutrefresh`
defers physical output until `doupdate`, i.e. is the batched variant. -/
def RefreshFn.isImmediate : RefreshFn → Bool
  | .refresh => true
  | .noutrefresh => false

/-- Process-wide terminal mode together with the refresh strategies of
the three UI regions (`chats`, `msgs`, `status`).  `echo`, `cbreakMode`,
`keypadMode` and `cursorVisible` mirror the curses flags toggled by
`suspend`; `screenActive` is whether the UI holds the alternate-screen
session (`endwin` releases it, the next `doupdate` reacquires it). -/
structure UIState where
  echo : Bool
  cbreakMode : Bool
  keypadMode : Bool
  cursorVisible : Bool
  screenActive : Bool
  chatsRefresh : RefreshFn
  msgsRefresh : RefreshFn
  statusRefresh : RefreshFn
  deriving DecidableEq, Repr

/-- One curses-level primitive performed by `suspend.__enter__` or
`suspend.__exit__`. -/
inductive CursesAct where
  | setRefreshAll (f : RefreshFn)
  | setEcho (b : Bool)
  | setCbreak (b : Bool)
  | setKeypad (b : Bool)
  | cursSet (n : Nat)
  | endwin
  | doupdate
  deriving DecidableEq, Repr

/-- Effect of one curses primitive on the state.  `endwin` releases the
screen session; `doupdate` flushes pending output, resuming the screen
session if `endwin` had released it. -/
def applyAct (s : UIState) : CursesAct → UIState
  | .setRefreshAll f =>
    { s with chatsRefresh := f, msgsRefresh := f, statusRefresh := f }
  | .setEcho b => { s with echo := b }
  | .setCbreak b => { s with cbreakMode := b }
  | .setKeypad b => { s with keypadMode := b }
  | .cursSet n => { s with cursorVisible := n ≠ 0 }
  | .endwin => { s with screenActive := false }
  | .doupdate => { s with screenActive := true }

/-- Run a sequence of curses primitives in order. -/
def runActs (acts : List CursesAct) (s : UIState) : UIState :=
  acts.foldl applyAct s

/-- The statements of `suspend.__enter__`, in source order: swap each
region's `_refresh` to `win.noutrefresh`, `curses.echo()`,
`curses.nocbreak()`, `stdscr.keypad(False)`, `curses.curs_set(1)`,
`curses.endwin()`. -/
def enterActs : List CursesAct :=
  [.setRefreshAll .noutrefresh, .setEcho true, .setCbreak false,
   .setKeypad false, .cursSet 1, .endwin]

/-- The statements of `suspend.__exit__`, in source order: swap each
region's `_refresh` to `win.refresh`, `curses.noecho()`,
`curses.cbreak()`, `stdscr.keypad(True)`, `curses.curs_set(0)`,
`curses.doupdate()`. -/
def exitActs : List CursesAct :=
  [.setRefreshAll .refresh, .setEcho false, .setCbreak true,
   .setKeypad true, .cursSet 0, .doupdate]

/-- State effect of `suspend.__enter__`. -/
def suspend_enter (s : UIState) : UIState := runActs enterActs s

/-- State effect of `suspend.__exit__`. -/
def suspend_exit (s : UIState) : UIState := runActs exitActs s

/-- The terminal/refresh state in which the UI normally runs, i.e. the
state `suspend.__exit__` establishes: echo off, cbreak on, keypad
decoding on, cursor hidden, screen session held, every region drawing
through `win.refresh`. -/
def activeState : UIState :=
  { echo := false, cbreakMode := true, keypadMode := true,
    cursorVisible := false, screenActive := true,
    chatsRefresh := .refresh, msgsRefresh := .refresh,
    statusRefresh := .refresh }

/-! ## Traces and the payload operations -/

/-- Observable events of a suspension scope: curses primitives and child
process launches (with the exit code the child returned). -/
inductive Event where
  | curses (a : CursesAct)
  | procCall (cmd : String) (code : Int)
  | procRun (cmd : String) (text : String) (code : Int)
  deriving DecidableEq, Repr

/-- Whether an event is a child-process launch. -/
def Event.isLaunch : Event → Bool
  | .procCall _ _ => true
  | .procRun _ _ _ => true
  | .curses _ => false

/-- Outcome of a payload operation or a scope body: the state it leaves,
the events it emitted, and the exception it raised, if any. -/
abbrev Outcome := UIState × List Event × Option String

/-- `suspend.call(cmd)`: `subprocess.call(cmd, shell=True)` — block
until the child exits, discard its exit code, raise nothing, touch no
terminal or refresh state. -/
def suspend_call (env : Env) (cmd : String) (s : UIState) : Outcome :=
  (s, [Event.procCall cmd (env.callExit cmd)], none)

/-- `suspend.run_with_input(cmd, text)`: `subprocess.run` with `text`
piped to stdin — block, discard the exit code, raise nothing, touch no
terminal or refresh state. -/
def suspend_run_with_input (env : Env) (cmd text : String) (s : UIState) : Outcome :=
  (s, [Event.procRun cmd text (env.runExit cmd text)], none)

/-- `suspend.open_file(file_path)`: resolve via
`get_file_handler(file_path)` (the `default` argument left absent); a
falsy command (absent or empty) returns silently; otherwise launch the
command via `suspend.call`; a resolver exception propagates. -/
def suspend_open_file (env : Env) (file_path : String) (s : UIState) : Outcome :=
  match get_file_handler env file_path none with
  | Except.error e => (s, [], some e)
  | Except.ok none => (s, [], none)
  | Except.ok (some cmd) =>
    if cmd = "" then (s, [], none) else suspend_call env cmd s

/-- Result of a whole `with suspend(view): ...` scope: final state, the
full event trace, and the exception that escaped the scope, if any. -/
structure ScopeResult where
  state : UIState
  events : List Event
  err : Option String
  deriving Repr

/-- The `with` statement: run `__enter__`, then the body (which may
raise after partial effects), then `__exit__` unconditionally,
propagating the body's exception afterwards. -/
def with_suspend (body : UIState → Outcome) (s : UIState) : ScopeResult :=
  let r := body (suspend_enter s)
  { state := suspend_exit r.1,
    events := enterActs.map Event.curses ++ r.2.1 ++ exitActs.map Event.curses,
    err := r.2.2 }

/-- A scope body that launches nothing and returns normally. -/
def pureBody : UIState → Outcome := fun t => (t, [], none)

/-- A scope body that raises immediately (e.g. a failing child-process
launch surfacing as an exception) with no prior effects. -/
def raisingBody : UIState → Outcome :=
  fun t => (t, [], some "FileNotFoundError: no such command")

/-- A pre-scope state differing from the canonical active one: echo is
enabled. -/
def echoOnState : UIState := { activeState with echo := true }

/-- Whether a resolver run completed without raising. -/
def noRaise (r : Except String (Option String)) : Bool :=
  match r with
  | Except.ok _ => true
  | Except.error _ => false

instance {ε α : Type} [DecidableEq ε] [DecidableEq α] : DecidableEq (Except ε α) :=
  fun a b =>
    match a, b with
    | Except.ok x, Except.ok y =>
      if h : x = y then isTrue (by rw [h])
      else isFalse (fun hh => h (Except.ok.inj hh))
    | Except.error x, Except.error y =>
      if h : x = y then isTrue (by rw [h])
      else isFalse (fun hh => h (Except.error.inj hh))
    | Except.ok _, Except.error _ => isFalse (fun hh => Except.noConfusion hh)
    | Except.error _, Except.ok _ => isFalse (fun hh => Except.noConfusion hh)

/-- Concrete environment for the spec's scenario: `movie.mp4` guesses
`video/mp4` with a registered `mpv` viewer, `notes.txt` guesses
`text/plain` with no registered handler, anything else has no
guessable type; the default opener template is `less` on the quoted
path. -/
def scenarioEnv : Env where
  guessType p :=
    if p = "movie.mp4" then some "video/mp4"
    else if p = "notes.txt" then some "text/plain"
    else none
  mailcapFind m p := if m = "video/mp4" then some ("mpv " ++ p) else none
  DEFAULT_OPEN := some "less \x7bfile_path\x7d"
  callExit _ := 0
  runExit _ _ := 0

/-- Concrete environment in which no path has a guessable media type
although a default opener template is configured. -/
def noMimeEnv : Env where
  guessType _ := none
  mailcapFind _ _ := none
  DEFAULT_OPEN := some "xdg-open \x7bfile_path\x7d"
  callExit _ := 0
  runExit _ _ := 0

/-- Concrete environment with a recognized media type for `notes.txt`,
no registered handler, and the default opener template unset. -/
def noDefaultEnv : Env where
  guessType p := if p = "notes.txt" then some "text/plain" else none
  mailcapFind _ _ := none
  DEFAULT_OPEN := none
  callExit _ := 0
  runExit _ _ := 0

/-! ## Helper lemmas -/

/-- `suspend.__exit__` writes every tracked field, so it sends every
state to the canonical active state. -/
theorem suspend_exit_eq_activeState (s : UIState) : suspend_exit s = activeState := rfl

/-- The scope's final state is `__exit__` applied to whatever state the
body left. -/
theorem with_suspend_state (body : UIState → Outcome) (s : UIState) :
    (with_suspend body s).state = suspend_exit (body (suspend_enter s)).1 := rfl

/-- The scope's trace is the `__enter__` block, then the body's events,
then the `__exit__` block. -/
theorem with_suspend_events (body : UIState → Outcome) (s : UIState) :
    (with_suspend body s).events
      = enterActs.map Event.curses ++
        ((body (suspend_enter s)).2.1 ++ exitActs.map Event.curses) := by
  simp [with_suspend]

/-- The scope propagates exactly the body's exception. -/
theorem with_suspend_err (body : UIState → Outcome) (s : UIState) :
    (with_suspend body s).err = (body (suspend_enter s)).2.2 := rfl

/-- An unguessable media type sends the resolver to its `default`
argument, whatever that argument and the rest of the environment are. -/
theorem get_file_handler_no_mtype (env : Env) (file_path : String)
    (default : Option String) (h : env.guessType file_path = none) :
    get_file_handler env file_path default = Except.ok default := by
  unfold get_file_handler
  rw [h]

/-! ## Claims -/

/-- Claim C1, counterexample: the symmetry invariant does not hold for
an arbitrary pre-scope terminal mode.  Starting a scope with echo
enabled (and a trivial body), the post-scope state has echo disabled,
so it differs from the pre-scope state. -/
theorem C1_symmetry_counterexample :
    (with_suspend pureBody echoOnState).state ≠ echoOnState := by decide

/-- Claim C1 (amended): the scope always exits in the canonical active
state — `__exit__` writes every terminal-mode flag and every region's
refresh strategy with fixed values rather than restoring saved ones —
so the symmetry invariant holds exactly when the pre-scope state is the
canonical active state (the state the UI is in whenever it opens a
scope), for every body, normal or raising. -/
theorem C1_symmetry_amended (body : UIState → Outcome) (s : UIState) :
    (with_suspend body s).state = activeState ∧
      (s = activeState → (with_suspend body s).state = s) := by
  refine ⟨rfl, fun hs => ?_⟩
  rw [hs]
  rfl

/-- Claim C1, witness: at the canonical active pre-state with a raising
body, the post-scope state equals the pre-scope state. -/
theorem C1_symmetry_witness :
    (with_suspend raisingBody activeState).state = activeState :=
  (C1_symmetry_amended raisingBody activeState).2 rfl

/-- Claim C2: exit actions run exactly once on every exit path.  For
any body that performs no curses primitives of its own (the payload
operations only launch processes), each `__exit__` primitive — restore
the regions' refresh strategy, disable echo, re-enter cbreak, re-enable
keypad decoding, hide the cursor, force the redraw pass — occurs
exactly once in the scope's trace, and the final state is `__exit__`
applied to the body's final state, whether or not the body raised. -/
theorem C2_guaranteed_release (body : UIState → Outcome) (s : UIState)
    (h : ∀ a : CursesAct, Event.curses a ∉ (body (suspend_enter s)).2.1) :
    (∀ a ∈ exitActs, (with_suspend body s).events.count (Event.curses a) = 1) ∧
      (with_suspend body s).state = suspend_exit (body (suspend_enter s)).1 := by
  refine ⟨fun a ha => ?_, rfl⟩
  have h0 : ((body (suspend_enter s)).2.1).count (Event.curses a) = 0 :=
    List.count_eq_zero.mpr (h a)
  rw [with_suspend_events, List.count_append, List.count_append, h0]
  simp only [exitActs, List.mem_cons, List.not_mem_nil, or_false] at ha
  rcases ha with rfl | rfl | rfl | rfl | rfl | rfl <;> decide

/-- Claim C2, witness: a scope whose body raises at once still records
the forced redraw (and, by the theorem, every other exit action)
exactly once, and the exception is still propagated. -/
theorem C2_guaranteed_release_witness :
    (with_suspend raisingBody activeState).events.count
        (Event.curses CursesAct.doupdate) = 1 ∧
      (with_suspend raisingBody activeState).err
        = some "FileNotFoundError: no such command" :=
  ⟨(C2_guaranteed_release raisingBody activeState (by simp [raisingBody])).1
      CursesAct.doupdate (by decide),
    rfl⟩

/-- Claim C6, counterexample: entering a scope does not switch the
regions to the immediate variant.  From the canonical active state
(whose regions use `win.refresh`, the immediate variant), `__enter__`
sets each region to `win.noutrefresh`, which is not the immediate
variant but the batched one. -/
theorem C6_refresh_swap_counterexample :
    activeState.chatsRefresh.isImmediate = true ∧
      (suspend_enter activeState).chatsRefresh = RefreshFn.noutrefresh ∧
      RefreshFn.noutrefresh.isImmediate = false := by decide

/-- Claim C6 (amended): on entry each region's refresh strategy is
switched from the immediate variant (`win.refresh`) to the batched
variant (`win.noutrefresh`); on exit it is restored to the immediate
variant and exactly one full redraw pass (`doupdate`) is forced. -/
theorem C6_refresh_swap_amended (s : UIState) :
    (suspend_enter s).chatsRefresh = RefreshFn.noutrefresh ∧
      (suspend_enter s).msgsRefresh = RefreshFn.noutrefresh ∧
      (suspend_enter s).statusRefresh = RefreshFn.noutrefresh ∧
      RefreshFn.noutrefresh.isImmediate = false ∧
      (suspend_exit s).chatsRefresh = RefreshFn.refresh ∧
      (suspend_exit s).msgsRefresh = RefreshFn.refresh ∧
      (suspend_exit s).statusRefresh = RefreshFn.refresh ∧
      RefreshFn.refresh.isImmediate = true ∧
      exitActs.count CursesAct.doupdate = 1 :=
  ⟨rfl, rfl, rfl, rfl, rfl, rfl, rfl, rfl, rfl⟩

/-- Claim C7: `suspend.call` and `suspend.run_with_input` launch the
child exactly once, discard its exit code, raise nothing and touch no
terminal or refresh state — for every environment, hence also when the
command is missing or exits non-zero — and a scope around such a call
still runs the exit actions, ending in the canonical active state with
no propagated error. -/
theorem C7_child_failures_not_surfaced (env : Env) (cmd text : String) (s : UIState) :
    (suspend_call env cmd s).2.2 = none ∧
      (suspend_call env cmd s).1 = s ∧
      (suspend_call env cmd s).2.1.countP (fun e => e.isLaunch) = 1 ∧
      (suspend_run_with_input env cmd text s).2.2 = none ∧
      (suspend_run_with_input env cmd text s).1 = s ∧
      (suspend_run_with_input env cmd text s).2.1.countP (fun e => e.isLaunch) = 1 ∧
      (with_suspend (suspend_call env cmd) s).err = none ∧
      (with_suspend (suspend_call env cmd) s).state = activeState :=
  ⟨rfl, rfl, rfl, rfl, rfl, rfl, rfl, rfl⟩

/-- Claim C8: running the exit actions twice yields the same
terminal-mode flags and refresh strategies as running them once —
`__exit__` writes absolute values, so no flag is toggled back. -/
theorem C8_idempotent_resume (s : UIState) :
    suspend_exit (suspend_exit s) = suspend_exit s := rfl

/-- Claim C9: the payload operations (`call`, `run_with_input`,
`open_file`) never mutate the terminal mode or any region's refresh
strategy, and in a scope's trace the entry block, the payload's events
and the exit block are three contiguous, non-interleaved segments. -/
theorem C9_frame_property (env : Env) (cmd text file_path : String) (s : UIState) :
    (suspend_call env cmd s).1 = s ∧
      (suspend_run_with_input env cmd text s).1 = s ∧
      (suspend_open_file env file_path s).1 = s ∧
      (with_suspend (suspend_call env cmd) s).events
        = enterActs.map Event.curses ++
            [Event.procCall cmd (env.callExit cmd)] ++ exitActs.map Event.curses := by
  refine ⟨rfl, rfl, ?_, rfl⟩
  unfold suspend_open_file
  rcases get_file_handler env file_path none with _ | _ | cmd2
  · rfl
  · rfl
  · by_cases hc : cmd2 = "" <;> simp [hc, suspend_call]

/-- Claim C3, counterexample: with an unrecognized media type the
resolver does not return the default-opener template even though one is
configured — it returns the `default` argument (absent here), because
the no-media-type branch ignores `DEFAULT_OPEN`. -/
theorem C3_fallback_counterexample :
    noMimeEnv.DEFAULT_OPEN = some "xdg-open \x7bfile_path\x7d" ∧
      get_file_handler noMimeEnv "notes.xyz" none = Except.ok none ∧
      (Except.ok none : Except String (Option String))
        ≠ Except.ok (some (formatFilePath "xdg-open \x7bfile_path\x7d"
            (shlex_quote "notes.xyz"))) := by decide

/-- Claim C3 (amended): with a recognized media type and a registered
handler, the resolver returns the handler; with a recognized media type
but no registered handler, it returns the default-opener template with
the path shell-quoted substituted for the placeholder; with an
unrecognized media type it returns its `default` argument (absent
unless the caller supplied one) — not the default-opener template. -/
theorem C3_fallback_order_amended (env : Env) (file_path : String)
    (default : Option String) :
    (∀ m hdl, env.guessType file_path = some m → m ≠ "" →
      env.mailcapFind m file_path = some hdl → hdl ≠ "" →
      get_file_handler env file_path default = Except.ok (some hdl)) ∧
      (∀ m t, env.guessType file_path = some m → m ≠ "" →
        env.mailcapFind m file_path = none → env.DEFAULT_OPEN = some t →
        get_file_handler env file_path default
          = Except.ok (some (formatFilePath t (shlex_quote file_path)))) ∧
      (env.guessType file_path = none →
        get_file_handler env file_path default = Except.ok default) := by
  refine ⟨fun m hdl hg hm hc hh => ?_, fun m t hg hm hc hd => ?_, fun hg => ?_⟩
  · unfold get_file_handler
    rw [hg]
    dsimp only
    rw [if_neg hm, hc]
    dsimp only
    rw [if_neg hh]
  · unfold get_file_handler
    rw [hg]
    dsimp only
    rw [if_neg hm, hc]
    dsimp only
    rw [hd]
  · exact get_file_handler_no_mtype env file_path default hg

/-- Claim C3, witness: the spec's scenario — `movie.mp4` resolves to
the registered `mpv` viewer, `notes.txt` (no registered handler) to
`less notes.txt` via the template, and an unknown extension to absent. -/
theorem C3_fallback_order_witness :
    get_file_handler scenarioEnv "movie.mp4" none
        = Except.ok (some "mpv movie.mp4") ∧
      get_file_handler scenarioEnv "notes.txt" none
        = Except.ok (some "less notes.txt") ∧
      get_file_handler scenarioEnv "unknown.zzz" none = Except.ok none := by
  refine ⟨?_, ?_, ?_⟩
  · have h1 := (C3_fallback_order_amended scenarioEnv "movie.mp4" none).1
      "video/mp4" "mpv movie.mp4" (by decide) (by decide) (by decide) (by decide)
    exact h1
  · have h2 := (C3_fallback_order_amended scenarioEnv "notes.txt" none).2.1
      "text/plain" "less \x7bfile_path\x7d" (by decide) (by decide) (by decide)
      (by decide)
    rw [h2]
    decide
  · exact (C3_fallback_order_amended scenarioEnv "unknown.zzz" none).2.2 (by decide)

/-- Claim C4, counterexample: with a recognized media type, no
registered handler and the default opener template unset, the resolver
raises (the attribute error of formatting `None`) instead of returning
absent. -/
theorem C4_never_raises_counterexample :
    get_file_handler noDefaultEnv "notes.txt" none
        = Except.error "AttributeError: NoneType has no attribute format" ∧
      noRaise (get_file_handler noDefaultEnv "notes.txt" none) = false := by decide

/-- Claim C4 (amended): provided the default opener template is
configured, the resolver never raises; and it returns absent only when
the media type is unguessable (or guessed empty) and the caller's
`default` argument is absent — even though the configured template
could have opened the file. -/
theorem C4_never_raises_amended (env : Env) (file_path : String)
    (default : Option String) (t : String) (hd : env.DEFAULT_OPEN = some t) :
    noRaise (get_file_handler env file_path default) = true ∧
      (get_file_handler env file_path default = Except.ok none →
        default = none ∧
          (env.guessType file_path = none ∨ env.guessType file_path = some "")) := by
  unfold get_file_handler
  cases hg : env.guessType file_path with
  | none =>
    refine ⟨rfl, fun hh => ⟨?_, Or.inl rfl⟩⟩
    simpa using hh
  | some m =>
    dsimp only
    by_cases hm : m = ""
    · rw [if_pos hm]
      subst hm
      refine ⟨rfl, fun hh => ⟨?_, Or.inr rfl⟩⟩
      simpa using hh
    · rw [if_neg hm]
      cases hc : env.mailcapFind m file_path with
      | none =>
        dsimp only
        rw [hd]
        exact ⟨rfl, by simp⟩
      | some hdl =>
        dsimp only
        by_cases hh : hdl = ""
        · rw [if_pos hh, hd]
          exact ⟨rfl, by simp⟩
        · rw [if_neg hh]
          exact ⟨rfl, by simp⟩

/-- Claim C4, witness: with the scenario environment (template
configured), resolving `notes.txt` raises nothing. -/
theorem C4_never_raises_witness :
    noRaise (get_file_handler scenarioEnv "notes.txt" none) = true ∧
      (get_file_handler scenarioEnv "notes.txt" none = Except.ok none →
        (none : Option String) = none ∧
          (scenarioEnv.guessType "notes.txt" = none ∨
            scenarioEnv.guessType "notes.txt" = some "")) :=
  C4_never_raises_amended scenarioEnv "notes.txt" none
    "less \x7bfile_path\x7d" (by decide)

/-- Claim C5: when the resolver yields absent, `open_file` launches no
process, raises nothing and leaves the state untouched; wrapped in its
suspend scope, the trace is exactly the entry block followed by the
exit block (zero launches), no error escapes, and the scope ends in the
canonical active state. -/
theorem C5_noop_on_miss (env : Env) (file_path : String) (s : UIState)
    (h : get_file_handler env file_path none = Except.ok none) :
    suspend_open_file env file_path s = (s, [], none) ∧
      (with_suspend (suspend_open_file env file_path) s).events
        = enterActs.map Event.curses ++ exitActs.map Event.curses ∧
      (with_suspend (suspend_open_file env file_path) s).events.countP
          (fun e => e.isLaunch) = 0 ∧
      (with_suspend (suspend_open_file env file_path) s).err = none ∧
      (with_suspend (suspend_open_file env file_path) s).state = activeState := by
  have hop : ∀ t : UIState, suspend_open_file env file_path t = (t, [], none) := by
    intro t
    unfold suspend_open_file
    rw [h]
  have hev : (with_suspend (suspend_open_file env file_path) s).events
      = enterActs.map Event.curses ++ exitActs.map Event.curses := by
    rw [with_suspend_events, hop]
    simp
  refine ⟨hop s, hev, ?_, ?_, rfl⟩
  · rw [hev]
    decide
  · rw [with_suspend_err, hop]

/-- Claim C5, witness: `open_file` on a path with no guessable media
type is a silent no-op from the canonical active state. -/
theorem C5_noop_on_miss_witness :
    suspend_open_file noMimeEnv "notes.xyz" activeState
        = (activeState, [], none) ∧
      (with_suspend (suspend_open_file noMimeEnv "notes.xyz") activeState).err
        = none :=
  ⟨(C5_noop_on_miss noMimeEnv "notes.xyz" activeState (by decide)).1,
    (C5_noop_on_miss noMimeEnv "notes.xyz" activeState (by decide)).2.2.2.1⟩

/-- Claim C10: for a path whose media type cannot be guessed,
`get_file_handler` returns its `default` argument verbatim — no
placeholder substitution, no shell quoting — so `open_file`, which
leaves that argument absent, is a silent no-op even when `DEFAULT_OPEN`
is configured; the configured template is reached only through the
guessed-type branch. -/
theorem C10_default_arg_verbatim (env : Env) (file_path : String)
    (default : Option String) (s : UIState) (h : env.guessType file_path = none) :
    get_file_handler env file_path default = Except.ok default ∧
      suspend_open_file env file_path s = (s, [], none) := by
  refine ⟨get_file_handler_no_mtype env file_path default h, ?_⟩
  unfold suspend_open_file
  rw [get_file_handler_no_mtype env file_path none h]

/-- Claim C10, witness: with a configured default template and an
unguessable path, the resolver hands back the supplied `default`
argument unchanged (no quoting of the path, no substitution) and
`open_file` does nothing. -/
theorem C10_default_arg_verbatim_witness :
    noMimeEnv.DEFAULT_OPEN = some "xdg-open \x7bfile_path\x7d" ∧
      get_file_handler noMimeEnv "photo.dat" (some "raw template \x7bfile_path\x7d")
        = Except.ok (some "raw template \x7bfile_path\x7d") ∧
      suspend_open_file noMimeEnv "photo.dat" activeState
        = (activeState, [], none) :=
  ⟨rfl,
    (C10_default_arg_verbatim noMimeEnv "photo.dat"
      (some "raw template \x7bfile_path\x7d") activeState (by decide)).1,
    (C10_default_arg_verbatim noMimeEnv "photo.dat"
      (some "raw template \x7bfile_path\x7d") activeState (by decide)).2⟩

end Tg
